import Mathlib

/-!
Verification of the bilge-water monitor state-machine core
(`src/include/StateMachine.h` of BoatReporterESP).

The C++ header is shallowly embedded below: `float` water levels become
`ℚ`, the `uint32_t` millisecond tick counter becomes `ℕ` with the
wrapping subtraction `now - recorded` modelled explicitly as arithmetic
modulo 2^32 (`timeElapsed`), and the mutating functions become pure
state-passing functions returning the updated context together with the
output record.
-/

namespace BoatReporter

/-- System states (`enum State` in `StateMachine.h`). -/
inductive State where
  | ERROR
  | NORMAL
  | EMERGENCY
  | CONFIG
deriving DecidableEq

/-- `struct StateMachineSensorReading`: `float level_cm` is embedded as `ℚ`. -/
structure StateMachineSensorReading where
  valid : Bool
  level_cm : ℚ
deriving DecidableEq

/-- `struct StateMachineContext`: all `uint32_t` timers become `ℕ`
(reduced mod 2^32 wherever the C++ code performs 32-bit arithmetic on
them), the `float` thresholds become `ℚ`, and the `int` durations become
`ℕ` (converted mod 2^32 at the points where the C++ code casts them to
`uint32_t`). -/
structure StateMachineContext where
  currentState : State
  lastStateChangeTime : ℕ
  emergencyConditionsTrueTime : ℕ
  emergencyConditionsFalseTime : ℕ
  lastEmergencyMessageTime : ℕ
  lastHornToggleTime : ℕ
  emergencyConditions : Bool
  urgentEmergencyConditions : Bool
  hornCurrentlyOn : Bool
  sensorError : Bool
  configCommandReceived : Bool
  notificationsSilenced : Bool
  emergencyWaterLevel_cm : ℚ
  urgentEmergencyWaterLevel_cm : ℚ
  emergencyNotifFreq_ms : ℕ
  hornOnDuration_ms : ℕ
  hornOffDuration_ms : ℕ
deriving DecidableEq

/-- The `StateMachineContext()` default constructor values. -/
def bootContext : StateMachineContext where
  currentState := .NORMAL
  lastStateChangeTime := 0
  emergencyConditionsTrueTime := 0
  emergencyConditionsFalseTime := 0
  lastEmergencyMessageTime := 0
  lastHornToggleTime := 0
  emergencyConditions := false
  urgentEmergencyConditions := false
  hornCurrentlyOn := false
  sensorError := false
  configCommandReceived := false
  notificationsSilenced := false
  emergencyWaterLevel_cm := 30
  urgentEmergencyWaterLevel_cm := 50
  emergencyNotifFreq_ms := 900000
  hornOnDuration_ms := 1000
  hornOffDuration_ms := 1000

/-- The `char message[256]` buffer of `StateMachineOutput`, modelled
structurally: the C++ code writes one of four `snprintf` format strings
(two of which embed the current water level); the empty buffer is
`empty`. -/
inductive AlertMessage where
  | empty
  | urgentAlert (level_cm : ℚ)
  | standardAlert (level_cm : ℚ)
  | silenceConfirm
  | unsilenceConfirm
deriving DecidableEq

/-- `struct StateMachineOutput` with its default-constructor values. -/
structure StateMachineOutput where
  stateChanged : Bool := false
  newState : State := .NORMAL
  setHornState : Bool := false
  hornOn : Bool := false
  sendEmergencyNotification : Bool := false
  sendSilenceConfirmation : Bool := false
  sendUnsilenceConfirmation : Bool := false
  message : AlertMessage := .empty
  ledPattern : ℕ := 0
deriving DecidableEq

/-- The `StateMachineOutput()` default constructor. -/
def StateMachineOutput.init : StateMachineOutput := {}

/-- `constexpr uint32_t EMERGENCY_TIMEOUT_MS = 1000`. -/
def EMERGENCY_TIMEOUT_MS : ℕ := 1000

/-- 2^32, the modulus of `uint32_t` arithmetic. -/
def UINT32_MOD : ℕ := 4294967296

/-- The 32-bit wrapping subtraction `currentTime - recorded` that every
elapsed-time guard in `StateMachine.h` performs on `uint32_t` values
(`computeNextState`, `shouldSendEmergencyNotification`,
`shouldHornBeOn`). -/
def timeElapsed (currentTime recorded : ℕ) : ℕ :=
  (currentTime % UINT32_MOD + (UINT32_MOD - recorded % UINT32_MOD)) % UINT32_MOD

/-- `updateEmergencyConditions` (StateMachine.h:110-134): tier-1 flag with
rising/falling edge timestamps, tier-2 flag with no timestamp. -/
def updateEmergencyConditions (ctx : StateMachineContext)
    (reading : StateMachineSensorReading) (currentTime : ℕ) :
    StateMachineContext :=
  let previousEmergencyConditions := ctx.emergencyConditions
  let ctx1 :=
    if ctx.emergencyWaterLevel_cm ≤ reading.level_cm then
      { ctx with
        emergencyConditions := true
        emergencyConditionsTrueTime :=
          if previousEmergencyConditions then ctx.emergencyConditionsTrueTime
          else currentTime }
    else
      { ctx with
        emergencyConditions := false
        emergencyConditionsFalseTime :=
          if previousEmergencyConditions then currentTime
          else ctx.emergencyConditionsFalseTime }
  { ctx1 with
    urgentEmergencyConditions :=
      decide (ctx1.urgentEmergencyWaterLevel_cm ≤ reading.level_cm) }

/-- `computeNextState` (StateMachine.h:137-178).  The `reading` parameter
is unused there as well. -/
def computeNextState (ctx : StateMachineContext)
    (_reading : StateMachineSensorReading) (currentTime : ℕ)
    (configServerActive : Bool) : State :=
  match ctx.currentState with
  | .ERROR =>
      if !ctx.sensorError then .NORMAL
      else if ctx.configCommandReceived then .CONFIG
      else ctx.currentState
  | .NORMAL =>
      if ctx.sensorError then .ERROR
      else if ctx.emergencyConditions &&
          decide (timeElapsed currentTime ctx.emergencyConditionsTrueTime ≥
            EMERGENCY_TIMEOUT_MS) then .EMERGENCY
      else if ctx.configCommandReceived then .CONFIG
      else ctx.currentState
  | .CONFIG =>
      if !configServerActive && !ctx.configCommandReceived then .NORMAL
      else ctx.currentState
  | .EMERGENCY =>
      if !ctx.emergencyConditions &&
          decide (timeElapsed currentTime ctx.emergencyConditionsFalseTime ≥
            EMERGENCY_TIMEOUT_MS) then .NORMAL
      else ctx.currentState

/-- `shouldSendEmergencyNotification` (StateMachine.h:181-196); the
`(uint32_t)ctx.emergencyNotifFreq_ms` cast is the `% UINT32_MOD`. -/
def shouldSendEmergencyNotification (ctx : StateMachineContext)
    (currentTime : ℕ) : Bool :=
  if ctx.currentState ≠ .EMERGENCY then false
  else if ctx.notificationsSilenced then false
  else if timeElapsed currentTime ctx.lastEmergencyMessageTime ≥
      ctx.emergencyNotifFreq_ms % UINT32_MOD then true
  else false

/-- `shouldHornBeOn` (StateMachine.h:199-220); the implicit `int` →
`uint32_t` conversion of the duration is the `% UINT32_MOD`. -/
def shouldHornBeOn (ctx : StateMachineContext) (currentTime : ℕ) : Bool :=
  if ctx.currentState ≠ .EMERGENCY then false
  else if !ctx.urgentEmergencyConditions then false
  else if ctx.notificationsSilenced then false
  else
    let currentDuration :=
      (if ctx.hornCurrentlyOn then ctx.hornOnDuration_ms
       else ctx.hornOffDuration_ms) % UINT32_MOD
    if timeElapsed currentTime ctx.lastHornToggleTime ≥ currentDuration then
      !ctx.hornCurrentlyOn
    else
      ctx.hornCurrentlyOn

/-- The transition block of `updateStateMachine` (StateMachine.h:238-254):
commit the state change, record its time, and on entry to `NORMAL` clear
the silence flag and the pending config command. -/
def applyTransition (ctx : StateMachineContext) (nextState : State)
    (currentTime : ℕ) : StateMachineContext × StateMachineOutput :=
  if nextState ≠ ctx.currentState then
    let c1 := { ctx with
      currentState := nextState
      lastStateChangeTime := currentTime }
    let c2 :=
      if nextState = .NORMAL ∧ c1.notificationsSilenced then
        { c1 with notificationsSilenced := false }
      else c1
    let c3 :=
      if nextState = .NORMAL ∧ c2.configCommandReceived then
        { c2 with configCommandReceived := false }
      else c2
    (c3, { StateMachineOutput.init with
            stateChanged := true
            newState := nextState })
  else
    (ctx, StateMachineOutput.init)

/-- The notification block of `updateStateMachine` (StateMachine.h:258-273):
if a notification is due, stamp the throttle timer and format the message. -/
def notificationTick (ctx : StateMachineContext)
    (reading : StateMachineSensorReading) (currentTime : ℕ)
    (output : StateMachineOutput) :
    StateMachineContext × StateMachineOutput :=
  if shouldSendEmergencyNotification ctx currentTime then
    ({ ctx with lastEmergencyMessageTime := currentTime },
     { output with
        sendEmergencyNotification := true
        message :=
          if ctx.urgentEmergencyConditions then
            AlertMessage.urgentAlert reading.level_cm
          else
            AlertMessage.standardAlert reading.level_cm })
  else
    (ctx, output)

/-- The horn-pulsing block of `updateStateMachine` (StateMachine.h:275-282). -/
def hornTick (ctx : StateMachineContext) (currentTime : ℕ)
    (output : StateMachineOutput) :
    StateMachineContext × StateMachineOutput :=
  let newHornState := shouldHornBeOn ctx currentTime
  if newHornState ≠ ctx.hornCurrentlyOn then
    ({ ctx with
        hornCurrentlyOn := newHornState
        lastHornToggleTime := currentTime },
     { output with setHornState := true, hornOn := newHornState })
  else
    (ctx, output)

/-- The not-in-emergency horn cleanup of `updateStateMachine`
(StateMachine.h:283-290); note it does not stamp `lastHornToggleTime`. -/
def hornForceOff (ctx : StateMachineContext) (output : StateMachineOutput) :
    StateMachineContext × StateMachineOutput :=
  if ctx.hornCurrentlyOn then
    ({ ctx with hornCurrentlyOn := false },
     { output with setHornState := true, hornOn := false })
  else
    (ctx, output)

/-- `updateStateMachine` (StateMachine.h:223-293), assembled from the
blocks above in source order. -/
def updateStateMachine (ctx0 : StateMachineContext)
    (reading : StateMachineSensorReading) (currentTime : ℕ)
    (configServerActive : Bool) :
    StateMachineContext × StateMachineOutput :=
  let c1 := { ctx0 with sensorError := !reading.valid }
  let c2 := updateEmergencyConditions c1 reading currentTime
  let nextState := computeNextState c2 reading currentTime configServerActive
  let p := applyTransition c2 nextState currentTime
  if p.1.currentState = .EMERGENCY then
    let q := notificationTick p.1 reading currentTime p.2
    hornTick q.1 currentTime q.2
  else
    hornForceOff p.1 p.2

/-- `handleSilenceToggle` (StateMachine.h:296-323). -/
def handleSilenceToggle (ctx : StateMachineContext) :
    StateMachineContext × StateMachineOutput :=
  if ctx.currentState ≠ .EMERGENCY then
    (ctx, StateMachineOutput.init)
  else
    let c1 := { ctx with notificationsSilenced := !ctx.notificationsSilenced }
    if c1.notificationsSilenced then
      let output := { StateMachineOutput.init with
        sendSilenceConfirmation := true
        message := AlertMessage.silenceConfirm }
      if c1.hornCurrentlyOn then
        ({ c1 with hornCurrentlyOn := false },
         { output with setHornState := true, hornOn := false })
      else
        (c1, output)
    else
      (c1, { StateMachineOutput.init with
              sendUnsilenceConfirmation := true
              message := AlertMessage.unsilenceConfirm })

/-- Contexts reachable from the boot context by any sequence of
`updateStateMachine` and `handleSilenceToggle` calls. -/
inductive Reachable : StateMachineContext → Prop where
  | boot : Reachable bootContext
  | update {c} (reading : StateMachineSensorReading) (currentTime : ℕ)
      (configServerActive : Bool) : Reachable c →
      Reachable (updateStateMachine c reading currentTime configServerActive).1
  | toggle {c} : Reachable c → Reachable (handleSilenceToggle c).1

/-- The guard under which the horn is allowed to be on. -/
def hornGuard (c : StateMachineContext) : Prop :=
  c.currentState = .EMERGENCY ∧ c.urgentEmergencyConditions = true ∧
    c.notificationsSilenced = false

instance (c : StateMachineContext) : Decidable (hornGuard c) := by
  unfold hornGuard; infer_instance

/-- The horn safety invariant of the spec. -/
def hornInv (c : StateMachineContext) : Prop :=
  c.hornCurrentlyOn = true → hornGuard c

/-- The silence invariant of the spec. -/
def silenceInv (c : StateMachineContext) : Prop :=
  c.notificationsSilenced = true → c.currentState = .EMERGENCY

/-- States after each step of a run of `updateStateMachine` over a list of
`(reading, time, configServerActive)` ticks. -/
def runStates (c : StateMachineContext) :
    List (StateMachineSensorReading × ℕ × Bool) → List State
  | [] => []
  | (r, t, a) :: rest =>
      let c' := (updateStateMachine c r t a).1
      c'.currentState :: runStates c' rest

/-- A valid reading at the given level, as a trace-building convenience. -/
def plainTick (level : ℚ) (t : ℕ) : StateMachineSensorReading × ℕ × Bool :=
  ({ valid := true, level_cm := level }, t, false)

/-- The context left after running `updateStateMachine` over every tick of
a trace. -/
def runCtx (c : StateMachineContext) :
    List (StateMachineSensorReading × ℕ × Bool) → StateMachineContext
  | [] => c
  | (r, t, a) :: rest => runCtx (updateStateMachine c r t a).1 rest

/-- The context after the sensor-error write and
`updateEmergencyConditions`, i.e. the context that `computeNextState`
inspects inside `updateStateMachine`. -/
def senseCtx (c : StateMachineContext) (r : StateMachineSensorReading)
    (t : ℕ) : StateMachineContext :=
  updateEmergencyConditions { c with sensorError := !r.valid } r t

/-! Concrete readings mirroring the repository's test helpers. -/

/-- An invalid reading (`createInvalidReading`). -/
def readingInvalid : StateMachineSensorReading where
  valid := false
  level_cm := 0

/-- An invalid reading whose raw level is above both thresholds. -/
def readingInvalidHigh : StateMachineSensorReading where
  valid := false
  level_cm := 55

/-- A valid reading below both thresholds (`createNormalReading`). -/
def readingNormal : StateMachineSensorReading where
  valid := true
  level_cm := 10

/-- A valid reading above tier 1 only (`createEmergencyReading`). -/
def readingEmergency : StateMachineSensorReading where
  valid := true
  level_cm := 35

/-- A valid reading above both thresholds (`createUrgentEmergencyReading`). -/
def readingUrgent : StateMachineSensorReading where
  valid := true
  level_cm := 55

/-- An emergency context with the tier-1 flag latched. -/
def ctxEmergency : StateMachineContext :=
  { bootContext with currentState := .EMERGENCY, emergencyConditions := true }

/-- Scenario C context: silenced emergency with a 10 s notification
interval and `lastEmergencyMessageTime = 0`. -/
def ctxEmergencySilenced : StateMachineContext :=
  { bootContext with
      currentState := .EMERGENCY
      emergencyConditions := true
      notificationsSilenced := true
      emergencyNotifFreq_ms := 10000 }

/-- A normal context with a pending config command. -/
def ctxConfigPending : StateMachineContext :=
  { bootContext with configCommandReceived := true }

/-- Scenario B context: urgent emergency, horn currently off, last horn
toggle at t = 1000, both horn phase durations 1000 ms. -/
def ctxScenarioB : StateMachineContext :=
  { bootContext with
      currentState := .EMERGENCY
      emergencyConditions := true
      urgentEmergencyConditions := true
      lastHornToggleTime := 1000 }

/-- An urgent emergency context with the horn currently on. -/
def ctxEmergencyHornOn : StateMachineContext :=
  { bootContext with
      currentState := .EMERGENCY
      emergencyConditions := true
      urgentEmergencyConditions := true
      hornCurrentlyOn := true }

/-- A silenced emergency context whose tier-1 conditions fell at tick 0,
ready for the debounced `Emergency → Normal` exit. -/
def ctxEmergencyClearing : StateMachineContext :=
  { bootContext with
      currentState := .EMERGENCY
      notificationsSilenced := true }

/-! ### Field characterisation lemmas for the update blocks -/

section FieldLemmas

variable (c : StateMachineContext) (r : StateMachineSensorReading)
variable (n : State) (t : ℕ) (a : Bool) (o : StateMachineOutput)

@[simp] theorem uec_currentState :
    (updateEmergencyConditions c r t).currentState = c.currentState := by
  unfold updateEmergencyConditions; split <;> rfl

@[simp] theorem uec_sensorError :
    (updateEmergencyConditions c r t).sensorError = c.sensorError := by
  unfold updateEmergencyConditions; split <;> rfl

@[simp] theorem uec_config :
    (updateEmergencyConditions c r t).configCommandReceived =
      c.configCommandReceived := by
  unfold updateEmergencyConditions; split <;> rfl

@[simp] theorem uec_silenced :
    (updateEmergencyConditions c r t).notificationsSilenced =
      c.notificationsSilenced := by
  unfold updateEmergencyConditions; split <;> rfl

@[simp] theorem uec_horn :
    (updateEmergencyConditions c r t).hornCurrentlyOn = c.hornCurrentlyOn := by
  unfold updateEmergencyConditions; split <;> rfl

@[simp] theorem uec_lastToggle :
    (updateEmergencyConditions c r t).lastHornToggleTime =
      c.lastHornToggleTime := by
  unfold updateEmergencyConditions; split <;> rfl

@[simp] theorem uec_lastMsg :
    (updateEmergencyConditions c r t).lastEmergencyMessageTime =
      c.lastEmergencyMessageTime := by
  unfold updateEmergencyConditions; split <;> rfl

@[simp] theorem uec_tier1 :
    (updateEmergencyConditions c r t).emergencyWaterLevel_cm =
      c.emergencyWaterLevel_cm := by
  unfold updateEmergencyConditions; split <;> rfl

@[simp] theorem uec_tier2 :
    (updateEmergencyConditions c r t).urgentEmergencyWaterLevel_cm =
      c.urgentEmergencyWaterLevel_cm := by
  unfold updateEmergencyConditions; split <;> rfl

@[simp] theorem uec_freq :
    (updateEmergencyConditions c r t).emergencyNotifFreq_ms =
      c.emergencyNotifFreq_ms := by
  unfold updateEmergencyConditions; split <;> rfl

@[simp] theorem uec_hornOnDur :
    (updateEmergencyConditions c r t).hornOnDuration_ms =
      c.hornOnDuration_ms := by
  unfold updateEmergencyConditions; split <;> rfl

@[simp] theorem uec_hornOffDur :
    (updateEmergencyConditions c r t).hornOffDuration_ms =
      c.hornOffDuration_ms := by
  unfold updateEmergencyConditions; split <;> rfl

@[simp] theorem uec_conditions :
    (updateEmergencyConditions c r t).emergencyConditions =
      decide (c.emergencyWaterLevel_cm ≤ r.level_cm) := by
  unfold updateEmergencyConditions; split <;> simp_all

@[simp] theorem uec_urgent :
    (updateEmergencyConditions c r t).urgentEmergencyConditions =
      decide (c.urgentEmergencyWaterLevel_cm ≤ r.level_cm) := by
  unfold updateEmergencyConditions; split <;> rfl

theorem uec_trueTime :
    (updateEmergencyConditions c r t).emergencyConditionsTrueTime =
      if c.emergencyWaterLevel_cm ≤ r.level_cm ∧ c.emergencyConditions = false
      then t else c.emergencyConditionsTrueTime := by
  unfold updateEmergencyConditions
  split_ifs with h1 h2 h3 <;> simp_all

theorem uec_falseTime :
    (updateEmergencyConditions c r t).emergencyConditionsFalseTime =
      if ¬(c.emergencyWaterLevel_cm ≤ r.level_cm) ∧ c.emergencyConditions = true
      then t else c.emergencyConditionsFalseTime := by
  unfold updateEmergencyConditions
  split_ifs with h1 h2 h3 <;> simp_all

@[simp] theorem applyTransition_currentState :
    (applyTransition c n t).1.currentState = n := by
  simp only [applyTransition]
  split_ifs <;> simp_all

@[simp] theorem applyTransition_sensorError :
    (applyTransition c n t).1.sensorError = c.sensorError := by
  simp only [applyTransition]
  split_ifs <;> simp_all

@[simp] theorem applyTransition_horn :
    (applyTransition c n t).1.hornCurrentlyOn = c.hornCurrentlyOn := by
  simp only [applyTransition]
  split_ifs <;> simp_all

@[simp] theorem applyTransition_lastToggle :
    (applyTransition c n t).1.lastHornToggleTime = c.lastHornToggleTime := by
  simp only [applyTransition]
  split_ifs <;> simp_all

@[simp] theorem applyTransition_lastMsg :
    (applyTransition c n t).1.lastEmergencyMessageTime =
      c.lastEmergencyMessageTime := by
  simp only [applyTransition]
  split_ifs <;> simp_all

@[simp] theorem applyTransition_conditions :
    (applyTransition c n t).1.emergencyConditions = c.emergencyConditions := by
  simp only [applyTransition]
  split_ifs <;> simp_all

@[simp] theorem applyTransition_urgent :
    (applyTransition c n t).1.urgentEmergencyConditions =
      c.urgentEmergencyConditions := by
  simp only [applyTransition]
  split_ifs <;> simp_all

@[simp] theorem applyTransition_trueTime :
    (applyTransition c n t).1.emergencyConditionsTrueTime =
      c.emergencyConditionsTrueTime := by
  simp only [applyTransition]
  split_ifs <;> simp_all

@[simp] theorem applyTransition_falseTime :
    (applyTransition c n t).1.emergencyConditionsFalseTime =
      c.emergencyConditionsFalseTime := by
  simp only [applyTransition]
  split_ifs <;> simp_all

@[simp] theorem applyTransition_tier1 :
    (applyTransition c n t).1.emergencyWaterLevel_cm =
      c.emergencyWaterLevel_cm := by
  simp only [applyTransition]
  split_ifs <;> simp_all

@[simp] theorem applyTransition_tier2 :
    (applyTransition c n t).1.urgentEmergencyWaterLevel_cm =
      c.urgentEmergencyWaterLevel_cm := by
  simp only [applyTransition]
  split_ifs <;> simp_all

@[simp] theorem applyTransition_freq :
    (applyTransition c n t).1.emergencyNotifFreq_ms =
      c.emergencyNotifFreq_ms := by
  simp only [applyTransition]
  split_ifs <;> simp_all

@[simp] theorem applyTransition_hornOnDur :
    (applyTransition c n t).1.hornOnDuration_ms = c.hornOnDuration_ms := by
  simp only [applyTransition]
  split_ifs <;> simp_all

@[simp] theorem applyTransition_hornOffDur :
    (applyTransition c n t).1.hornOffDuration_ms = c.hornOffDuration_ms := by
  simp only [applyTransition]
  split_ifs <;> simp_all

theorem applyTransition_silenced :
    (applyTransition c n t).1.notificationsSilenced =
      if n ≠ c.currentState ∧ n = State.NORMAL then false
      else c.notificationsSilenced := by
  simp only [applyTransition]
  split_ifs <;> simp_all

theorem applyTransition_config :
    (applyTransition c n t).1.configCommandReceived =
      if n ≠ c.currentState ∧ n = State.NORMAL then false
      else c.configCommandReceived := by
  simp only [applyTransition]
  split_ifs <;> simp_all

theorem applyTransition_output :
    (applyTransition c n t).2 =
      if n ≠ c.currentState then
        { StateMachineOutput.init with stateChanged := true, newState := n }
      else StateMachineOutput.init := by
  simp only [applyTransition]
  split_ifs <;> simp_all

@[simp] theorem notificationTick_currentState :
    (notificationTick c r t o).1.currentState = c.currentState := by
  unfold notificationTick; split <;> rfl

@[simp] theorem notificationTick_silenced :
    (notificationTick c r t o).1.notificationsSilenced =
      c.notificationsSilenced := by
  unfold notificationTick; split <;> rfl

@[simp] theorem notificationTick_config :
    (notificationTick c r t o).1.configCommandReceived =
      c.configCommandReceived := by
  unfold notificationTick; split <;> rfl

@[simp] theorem notificationTick_sensorError :
    (notificationTick c r t o).1.sensorError = c.sensorError := by
  unfold notificationTick; split <;> rfl

@[simp] theorem notificationTick_horn :
    (notificationTick c r t o).1.hornCurrentlyOn = c.hornCurrentlyOn := by
  unfold notificationTick; split <;> rfl

@[simp] theorem notificationTick_lastToggle :
    (notificationTick c r t o).1.lastHornToggleTime =
      c.lastHornToggleTime := by
  unfold notificationTick; split <;> rfl

@[simp] theorem notificationTick_urgent :
    (notificationTick c r t o).1.urgentEmergencyConditions =
      c.urgentEmergencyConditions := by
  unfold notificationTick; split <;> rfl

@[simp] theorem notificationTick_conditions :
    (notificationTick c r t o).1.emergencyConditions =
      c.emergencyConditions := by
  unfold notificationTick; split <;> rfl

@[simp] theorem notificationTick_trueTime :
    (notificationTick c r t o).1.emergencyConditionsTrueTime =
      c.emergencyConditionsTrueTime := by
  unfold notificationTick; split <;> rfl

@[simp] theorem notificationTick_falseTime :
    (notificationTick c r t o).1.emergencyConditionsFalseTime =
      c.emergencyConditionsFalseTime := by
  unfold notificationTick; split <;> rfl

@[simp] theorem notificationTick_tier1 :
    (notificationTick c r t o).1.emergencyWaterLevel_cm =
      c.emergencyWaterLevel_cm := by
  unfold notificationTick; split <;> rfl

@[simp] theorem notificationTick_tier2 :
    (notificationTick c r t o).1.urgentEmergencyWaterLevel_cm =
      c.urgentEmergencyWaterLevel_cm := by
  unfold notificationTick; split <;> rfl

@[simp] theorem notificationTick_freq :
    (notificationTick c r t o).1.emergencyNotifFreq_ms =
      c.emergencyNotifFreq_ms := by
  unfold notificationTick; split <;> rfl

@[simp] theorem notificationTick_hornOnDur :
    (notificationTick c r t o).1.hornOnDuration_ms = c.hornOnDuration_ms := by
  unfold notificationTick; split <;> rfl

@[simp] theorem notificationTick_hornOffDur :
    (notificationTick c r t o).1.hornOffDuration_ms = c.hornOffDuration_ms := by
  unfold notificationTick; split <;> rfl

theorem notificationTick_lastMsg :
    (notificationTick c r t o).1.lastEmergencyMessageTime =
      if shouldSendEmergencyNotification c t then t
      else c.lastEmergencyMessageTime := by
  unfold notificationTick; split <;> simp_all

theorem notificationTick_sendFlag :
    (notificationTick c r t o).2.sendEmergencyNotification =
      (shouldSendEmergencyNotification c t || o.sendEmergencyNotification) := by
  unfold notificationTick; split <;> simp_all

@[simp] theorem notificationTick_stateChanged :
    (notificationTick c r t o).2.stateChanged = o.stateChanged := by
  unfold notificationTick; split <;> rfl

@[simp] theorem notificationTick_newState :
    (notificationTick c r t o).2.newState = o.newState := by
  unfold notificationTick; split <;> rfl

@[simp] theorem notificationTick_setHornState :
    (notificationTick c r t o).2.setHornState = o.setHornState := by
  unfold notificationTick; split <;> rfl

@[simp] theorem notificationTick_hornOn :
    (notificationTick c r t o).2.hornOn = o.hornOn := by
  unfold notificationTick; split <;> rfl

@[simp] theorem hornTick_horn :
    (hornTick c t o).1.hornCurrentlyOn = shouldHornBeOn c t := by
  simp only [hornTick]
  split <;> simp_all

@[simp] theorem hornTick_currentState :
    (hornTick c t o).1.currentState = c.currentState := by
  simp only [hornTick]; split <;> rfl

@[simp] theorem hornTick_silenced :
    (hornTick c t o).1.notificationsSilenced = c.notificationsSilenced := by
  simp only [hornTick]; split <;> rfl

@[simp] theorem hornTick_config :
    (hornTick c t o).1.configCommandReceived = c.configCommandReceived := by
  simp only [hornTick]; split <;> rfl

@[simp] theorem hornTick_sensorError :
    (hornTick c t o).1.sensorError = c.sensorError := by
  simp only [hornTick]; split <;> rfl

@[simp] theorem hornTick_urgent :
    (hornTick c t o).1.urgentEmergencyConditions =
      c.urgentEmergencyConditions := by
  simp only [hornTick]; split <;> rfl

@[simp] theorem hornTick_conditions :
    (hornTick c t o).1.emergencyConditions = c.emergencyConditions := by
  simp only [hornTick]; split <;> rfl

@[simp] theorem hornTick_trueTime :
    (hornTick c t o).1.emergencyConditionsTrueTime =
      c.emergencyConditionsTrueTime := by
  simp only [hornTick]; split <;> rfl

@[simp] theorem hornTick_falseTime :
    (hornTick c t o).1.emergencyConditionsFalseTime =
      c.emergencyConditionsFalseTime := by
  simp only [hornTick]; split <;> rfl

@[simp] theorem hornTick_lastMsg :
    (hornTick c t o).1.lastEmergencyMessageTime =
      c.lastEmergencyMessageTime := by
  simp only [hornTick]; split <;> rfl

@[simp] theorem hornTick_tier1 :
    (hornTick c t o).1.emergencyWaterLevel_cm = c.emergencyWaterLevel_cm := by
  simp only [hornTick]; split <;> rfl

@[simp] theorem hornTick_tier2 :
    (hornTick c t o).1.urgentEmergencyWaterLevel_cm =
      c.urgentEmergencyWaterLevel_cm := by
  simp only [hornTick]; split <;> rfl

@[simp] theorem hornTick_freq :
    (hornTick c t o).1.emergencyNotifFreq_ms = c.emergencyNotifFreq_ms := by
  simp only [hornTick]; split <;> rfl

@[simp] theorem hornTick_hornOnDur :
    (hornTick c t o).1.hornOnDuration_ms = c.hornOnDuration_ms := by
  simp only [hornTick]; split <;> rfl

@[simp] theorem hornTick_hornOffDur :
    (hornTick c t o).1.hornOffDuration_ms = c.hornOffDuration_ms := by
  simp only [hornTick]; split <;> rfl

theorem hornTick_lastToggle :
    (hornTick c t o).1.lastHornToggleTime =
      if shouldHornBeOn c t ≠ c.hornCurrentlyOn then t
      else c.lastHornToggleTime := by
  simp only [hornTick]; split <;> simp_all

theorem hornTick_setHornState :
    (hornTick c t o).2.setHornState =
      if shouldHornBeOn c t ≠ c.hornCurrentlyOn then true
      else o.setHornState := by
  simp only [hornTick]; split <;> simp_all

theorem hornTick_hornOn :
    (hornTick c t o).2.hornOn =
      if shouldHornBeOn c t ≠ c.hornCurrentlyOn then shouldHornBeOn c t
      else o.hornOn := by
  simp only [hornTick]; split <;> simp_all

@[simp] theorem hornTick_stateChanged :
    (hornTick c t o).2.stateChanged = o.stateChanged := by
  simp only [hornTick]; split <;> rfl

@[simp] theorem hornTick_sendFlag :
    (hornTick c t o).2.sendEmergencyNotification =
      o.sendEmergencyNotification := by
  simp only [hornTick]; split <;> rfl

@[simp] theorem hornForceOff_horn :
    (hornForceOff c o).1.hornCurrentlyOn = false := by
  unfold hornForceOff; split <;> simp_all

@[simp] theorem hornForceOff_currentState :
    (hornForceOff c o).1.currentState = c.currentState := by
  unfold hornForceOff; split <;> rfl

@[simp] theorem hornForceOff_silenced :
    (hornForceOff c o).1.notificationsSilenced = c.notificationsSilenced := by
  unfold hornForceOff; split <;> rfl

@[simp] theorem hornForceOff_config :
    (hornForceOff c o).1.configCommandReceived = c.configCommandReceived := by
  unfold hornForceOff; split <;> rfl

@[simp] theorem hornForceOff_sensorError :
    (hornForceOff c o).1.sensorError = c.sensorError := by
  unfold hornForceOff; split <;> rfl

@[simp] theorem hornForceOff_urgent :
    (hornForceOff c o).1.urgentEmergencyConditions =
      c.urgentEmergencyConditions := by
  unfold hornForceOff; split <;> rfl

@[simp] theorem hornForceOff_conditions :
    (hornForceOff c o).1.emergencyConditions = c.emergencyConditions := by
  unfold hornForceOff; split <;> rfl

@[simp] theorem hornForceOff_trueTime :
    (hornForceOff c o).1.emergencyConditionsTrueTime =
      c.emergencyConditionsTrueTime := by
  unfold hornForceOff; split <;> rfl

@[simp] theorem hornForceOff_falseTime :
    (hornForceOff c o).1.emergencyConditionsFalseTime =
      c.emergencyConditionsFalseTime := by
  unfold hornForceOff; split <;> rfl

@[simp] theorem hornForceOff_lastMsg :
    (hornForceOff c o).1.lastEmergencyMessageTime =
      c.lastEmergencyMessageTime := by
  unfold hornForceOff; split <;> rfl

@[simp] theorem hornForceOff_lastToggle :
    (hornForceOff c o).1.lastHornToggleTime = c.lastHornToggleTime := by
  unfold hornForceOff; split <;> rfl

@[simp] theorem hornForceOff_tier1 :
    (hornForceOff c o).1.emergencyWaterLevel_cm = c.emergencyWaterLevel_cm := by
  unfold hornForceOff; split <;> rfl

@[simp] theorem hornForceOff_tier2 :
    (hornForceOff c o).1.urgentEmergencyWaterLevel_cm =
      c.urgentEmergencyWaterLevel_cm := by
  unfold hornForceOff; split <;> rfl

@[simp] theorem hornForceOff_freq :
    (hornForceOff c o).1.emergencyNotifFreq_ms = c.emergencyNotifFreq_ms := by
  unfold hornForceOff; split <;> rfl

@[simp] theorem hornForceOff_hornOnDur :
    (hornForceOff c o).1.hornOnDuration_ms = c.hornOnDuration_ms := by
  unfold hornForceOff; split <;> rfl

@[simp] theorem hornForceOff_hornOffDur :
    (hornForceOff c o).1.hornOffDuration_ms = c.hornOffDuration_ms := by
  unfold hornForceOff; split <;> rfl

theorem hornForceOff_setHornState :
    (hornForceOff c o).2.setHornState =
      if c.hornCurrentlyOn then true else o.setHornState := by
  unfold hornForceOff; split <;> simp_all

theorem hornForceOff_hornOn :
    (hornForceOff c o).2.hornOn =
      if c.hornCurrentlyOn then false else o.hornOn := by
  unfold hornForceOff; split <;> simp_all

@[simp] theorem hornForceOff_stateChanged :
    (hornForceOff c o).2.stateChanged = o.stateChanged := by
  unfold hornForceOff; split <;> rfl

@[simp] theorem hornForceOff_sendFlag :
    (hornForceOff c o).2.sendEmergencyNotification =
      o.sendEmergencyNotification := by
  unfold hornForceOff; split <;> rfl

end FieldLemmas

/-! ### Unfolding lemmas for `computeNextState` and the full update -/

section UnfoldLemmas

variable (c : StateMachineContext) (r : StateMachineSensorReading)
variable (t : ℕ) (a : Bool) (o : StateMachineOutput)

theorem computeNextState_ERROR (h : c.currentState = .ERROR) :
    computeNextState c r t a =
      if !c.sensorError then .NORMAL
      else if c.configCommandReceived then .CONFIG
      else .ERROR := by
  unfold computeNextState; rw [h]

theorem computeNextState_NORMAL (h : c.currentState = .NORMAL) :
    computeNextState c r t a =
      if c.sensorError then .ERROR
      else if c.emergencyConditions &&
          decide (timeElapsed t c.emergencyConditionsTrueTime ≥
            EMERGENCY_TIMEOUT_MS) then .EMERGENCY
      else if c.configCommandReceived then .CONFIG
      else .NORMAL := by
  unfold computeNextState; rw [h]

theorem computeNextState_CONFIG (h : c.currentState = .CONFIG) :
    computeNextState c r t a =
      if !a && !c.configCommandReceived then .NORMAL
      else .CONFIG := by
  unfold computeNextState; rw [h]

theorem computeNextState_EMERGENCY (h : c.currentState = .EMERGENCY) :
    computeNextState c r t a =
      if !c.emergencyConditions &&
          decide (timeElapsed t c.emergencyConditionsFalseTime ≥
            EMERGENCY_TIMEOUT_MS) then .NORMAL
      else .EMERGENCY := by
  unfold computeNextState; rw [h]

theorem computeNextState_EMERGENCY_cases (h : c.currentState = .EMERGENCY) :
    computeNextState c r t a = .EMERGENCY ∨
      computeNextState c r t a = .NORMAL := by
  rw [computeNextState_EMERGENCY c r t a h]
  split <;> simp

theorem shouldHornBeOn_true_guard (h : shouldHornBeOn c t = true) :
    c.currentState = .EMERGENCY ∧ c.urgentEmergencyConditions = true ∧
      c.notificationsSilenced = false := by
  unfold shouldHornBeOn at h
  split_ifs at h with h1 h2 h3 <;> simp_all

theorem shouldHornBeOn_notificationTick (t' : ℕ) :
    shouldHornBeOn (notificationTick c r t o).1 t' = shouldHornBeOn c t' := by
  unfold shouldHornBeOn
  simp

theorem updateStateMachine_def :
    updateStateMachine c r t a =
      (let c2 := senseCtx c r t
       let p := applyTransition c2 (computeNextState c2 r t a) t
       if p.1.currentState = .EMERGENCY then
         let q := notificationTick p.1 r t p.2
         hornTick q.1 t q.2
       else hornForceOff p.1 p.2) := rfl

@[simp] theorem senseCtx_currentState :
    (senseCtx c r t).currentState = c.currentState := by
  simp [senseCtx]

@[simp] theorem senseCtx_sensorError :
    (senseCtx c r t).sensorError = !r.valid := by
  simp [senseCtx]

@[simp] theorem senseCtx_conditions :
    (senseCtx c r t).emergencyConditions =
      decide (c.emergencyWaterLevel_cm ≤ r.level_cm) := by
  simp [senseCtx]

@[simp] theorem senseCtx_urgent :
    (senseCtx c r t).urgentEmergencyConditions =
      decide (c.urgentEmergencyWaterLevel_cm ≤ r.level_cm) := by
  simp [senseCtx]

@[simp] theorem senseCtx_config :
    (senseCtx c r t).configCommandReceived = c.configCommandReceived := by
  simp [senseCtx]

@[simp] theorem senseCtx_silenced :
    (senseCtx c r t).notificationsSilenced = c.notificationsSilenced := by
  simp [senseCtx]

@[simp] theorem senseCtx_horn :
    (senseCtx c r t).hornCurrentlyOn = c.hornCurrentlyOn := by
  simp [senseCtx]

@[simp] theorem senseCtx_lastToggle :
    (senseCtx c r t).lastHornToggleTime = c.lastHornToggleTime := by
  simp [senseCtx]

@[simp] theorem senseCtx_lastMsg :
    (senseCtx c r t).lastEmergencyMessageTime =
      c.lastEmergencyMessageTime := by
  simp [senseCtx]

@[simp] theorem senseCtx_tier1 :
    (senseCtx c r t).emergencyWaterLevel_cm = c.emergencyWaterLevel_cm := by
  simp [senseCtx]

@[simp] theorem senseCtx_tier2 :
    (senseCtx c r t).urgentEmergencyWaterLevel_cm =
      c.urgentEmergencyWaterLevel_cm := by
  simp [senseCtx]

@[simp] theorem senseCtx_freq :
    (senseCtx c r t).emergencyNotifFreq_ms = c.emergencyNotifFreq_ms := by
  simp [senseCtx]

@[simp] theorem senseCtx_hornOnDur :
    (senseCtx c r t).hornOnDuration_ms = c.hornOnDuration_ms := by
  simp [senseCtx]

@[simp] theorem senseCtx_hornOffDur :
    (senseCtx c r t).hornOffDuration_ms = c.hornOffDuration_ms := by
  simp [senseCtx]

theorem senseCtx_trueTime :
    (senseCtx c r t).emergencyConditionsTrueTime =
      if c.emergencyWaterLevel_cm ≤ r.level_cm ∧ c.emergencyConditions = false
      then t else c.emergencyConditionsTrueTime := by
  unfold senseCtx
  rw [uec_trueTime]

theorem senseCtx_falseTime :
    (senseCtx c r t).emergencyConditionsFalseTime =
      if ¬(c.emergencyWaterLevel_cm ≤ r.level_cm) ∧ c.emergencyConditions = true
      then t else c.emergencyConditionsFalseTime := by
  unfold senseCtx
  rw [uec_falseTime]

/-- The state after a full update is exactly what `computeNextState`
returned on the sensed context. -/
theorem update_currentState :
    (updateStateMachine c r t a).1.currentState =
      computeNextState (senseCtx c r t) r t a := by
  simp only [updateStateMachine_def]
  split_ifs <;> simp

@[simp] theorem update_sensorError :
    (updateStateMachine c r t a).1.sensorError = !r.valid := by
  simp only [updateStateMachine_def]
  split_ifs <;> simp

@[simp] theorem update_conditions :
    (updateStateMachine c r t a).1.emergencyConditions =
      decide (c.emergencyWaterLevel_cm ≤ r.level_cm) := by
  simp only [updateStateMachine_def]
  split_ifs <;> simp

@[simp] theorem update_urgent :
    (updateStateMachine c r t a).1.urgentEmergencyConditions =
      decide (c.urgentEmergencyWaterLevel_cm ≤ r.level_cm) := by
  simp only [updateStateMachine_def]
  split_ifs <;> simp

@[simp] theorem update_tier1 :
    (updateStateMachine c r t a).1.emergencyWaterLevel_cm =
      c.emergencyWaterLevel_cm := by
  simp only [updateStateMachine_def]
  split_ifs <;> simp

@[simp] theorem update_tier2 :
    (updateStateMachine c r t a).1.urgentEmergencyWaterLevel_cm =
      c.urgentEmergencyWaterLevel_cm := by
  simp only [updateStateMachine_def]
  split_ifs <;> simp

@[simp] theorem update_freq :
    (updateStateMachine c r t a).1.emergencyNotifFreq_ms =
      c.emergencyNotifFreq_ms := by
  simp only [updateStateMachine_def]
  split_ifs <;> simp

@[simp] theorem update_hornOnDur :
    (updateStateMachine c r t a).1.hornOnDuration_ms =
      c.hornOnDuration_ms := by
  simp only [updateStateMachine_def]
  split_ifs <;> simp

@[simp] theorem update_hornOffDur :
    (updateStateMachine c r t a).1.hornOffDuration_ms =
      c.hornOffDuration_ms := by
  simp only [updateStateMachine_def]
  split_ifs <;> simp

theorem update_trueTime :
    (updateStateMachine c r t a).1.emergencyConditionsTrueTime =
      if c.emergencyWaterLevel_cm ≤ r.level_cm ∧ c.emergencyConditions = false
      then t else c.emergencyConditionsTrueTime := by
  simp only [updateStateMachine_def]
  split_ifs <;> simp_all [senseCtx_trueTime]

theorem update_falseTime :
    (updateStateMachine c r t a).1.emergencyConditionsFalseTime =
      if ¬(c.emergencyWaterLevel_cm ≤ r.level_cm) ∧ c.emergencyConditions = true
      then t else c.emergencyConditionsFalseTime := by
  simp only [updateStateMachine_def]
  split_ifs <;> simp_all [senseCtx_falseTime]

theorem update_config :
    (updateStateMachine c r t a).1.configCommandReceived =
      if computeNextState (senseCtx c r t) r t a ≠ c.currentState ∧
          computeNextState (senseCtx c r t) r t a = State.NORMAL then false
      else c.configCommandReceived := by
  simp only [updateStateMachine_def, applyTransition_currentState]
  by_cases hEm : computeNextState (senseCtx c r t) r t a = State.EMERGENCY
  · rw [if_pos hEm]
    simp [applyTransition_config, hEm]
  · rw [if_neg hEm]
    simp [applyTransition_config]

theorem update_silenced :
    (updateStateMachine c r t a).1.notificationsSilenced =
      if computeNextState (senseCtx c r t) r t a ≠ c.currentState ∧
          computeNextState (senseCtx c r t) r t a = State.NORMAL then false
      else c.notificationsSilenced := by
  simp only [updateStateMachine_def, applyTransition_currentState]
  by_cases hEm : computeNextState (senseCtx c r t) r t a = State.EMERGENCY
  · rw [if_pos hEm]
    simp [applyTransition_silenced, hEm]
  · rw [if_neg hEm]
    simp [applyTransition_silenced]

theorem timeElapsed_self : timeElapsed t t = 0 := by
  unfold timeElapsed UINT32_MOD
  omega

theorem applyTransition_eq_self (h : n = c.currentState) :
    applyTransition c n t = (c, StateMachineOutput.init) := by
  unfold applyTransition
  simp [h]

@[simp] theorem hornTick_newState :
    (hornTick c t o).2.newState = o.newState := by
  simp only [hornTick]; split <;> rfl

@[simp] theorem hornForceOff_newState :
    (hornForceOff c o).2.newState = o.newState := by
  unfold hornForceOff; split <;> rfl

theorem update_stateChanged :
    (updateStateMachine c r t a).2.stateChanged =
      decide (computeNextState (senseCtx c r t) r t a ≠ c.currentState) := by
  simp only [updateStateMachine_def]
  split_ifs <;> simp [applyTransition_output] <;> split_ifs <;>
    simp_all [StateMachineOutput.init]

theorem update_newState :
    (updateStateMachine c r t a).2.newState =
      if computeNextState (senseCtx c r t) r t a ≠ c.currentState then
        computeNextState (senseCtx c r t) r t a
      else State.NORMAL := by
  simp only [updateStateMachine_def]
  split_ifs <;> simp [applyTransition_output] <;> split_ifs <;>
    simp_all [StateMachineOutput.init]

theorem computeNextState_congr (c c' : StateMachineContext)
    (r : StateMachineSensorReading) (t' : ℕ) (a' : Bool)
    (h1 : c.currentState = c'.currentState)
    (h2 : c.sensorError = c'.sensorError)
    (h3 : c.configCommandReceived = c'.configCommandReceived)
    (h4 : c.emergencyConditions = c'.emergencyConditions)
    (h5 : c.emergencyConditionsTrueTime = c'.emergencyConditionsTrueTime)
    (h6 : c.emergencyConditionsFalseTime = c'.emergencyConditionsFalseTime) :
    computeNextState c r t' a' = computeNextState c' r t' a' := by
  unfold computeNextState
  rw [h1, h2, h3, h4, h5, h6]

end UnfoldLemmas

/-! ### Claim theorems -/

/-- C10: all elapsed-time guards (emergency entry/exit debounce,
notification throttle, horn phase) compare `timeElapsed now recorded` —
the unsigned 32-bit subtraction modulo 2^32 — against their duration;
for every pair of true (unbounded) timestamps whose true elapsed time is
below 2^32 ms, the wrapped subtraction of the corresponding 32-bit tick
values equals the true elapsed time, so each guard is equivalent to
"true elapsed time since the recorded edge ≥ duration", even when the
32-bit tick counter numerically wraps past zero in between. -/
theorem spec_C10_wrapping_guards (trueRec trueNow d : ℕ)
    (hle : trueRec ≤ trueNow) (hspan : trueNow - trueRec < UINT32_MOD) :
    timeElapsed (trueNow % UINT32_MOD) (trueRec % UINT32_MOD) =
      trueNow - trueRec ∧
    (timeElapsed (trueNow % UINT32_MOD) (trueRec % UINT32_MOD) ≥ d ↔
      trueNow - trueRec ≥ d) := by
  have h : timeElapsed (trueNow % UINT32_MOD) (trueRec % UINT32_MOD) =
      trueNow - trueRec := by
    have hspan' : trueNow - trueRec < 4294967296 := hspan
    unfold timeElapsed UINT32_MOD
    rw [Nat.mod_mod_of_dvd trueNow dvd_rfl, Nat.mod_mod_of_dvd trueRec dvd_rfl]
    omega
  exact ⟨h, by rw [h]⟩

/-- C10 witness: a guard evaluated across a live wrap of the tick
counter: the edge is recorded at true time 2^32 − 500 and checked at
true time 2^32 + 500 (wrapped tick 500); the wrapped subtraction sees
exactly the true 1000 ms. -/
theorem spec_C10_wrapping_guards_witness :
    timeElapsed (4294967796 % UINT32_MOD) (4294966796 % UINT32_MOD) = 1000 ∧
    (timeElapsed (4294967796 % UINT32_MOD) (4294966796 % UINT32_MOD) ≥ 1000 ↔
      4294967796 - 4294966796 ≥ 1000) := by
  have h := spec_C10_wrapping_guards 4294966796 4294967796 1000
    (by decide) (by decide)
  exact ⟨h.1.trans (by decide), h.2⟩

/-- C8: `handleSilenceToggle` with `currentState ≠ EMERGENCY` leaves the
whole context unchanged and emits no action; in `EMERGENCY` it flips
`notificationsSilenced`; when silencing it additionally forces the horn
off (emitting a horn-off command if the horn was on) and emits a
`SilenceConfirm` notification, when unsilencing it emits an
`UnsilenceConfirm` notification; `lastEmergencyMessageTime` is untouched
in every case. -/
theorem spec_C8_silence_toggle (c : StateMachineContext) :
    (c.currentState ≠ .EMERGENCY →
      handleSilenceToggle c = (c, StateMachineOutput.init)) ∧
    (c.currentState = .EMERGENCY →
      (handleSilenceToggle c).1.notificationsSilenced =
        !c.notificationsSilenced ∧
      (c.notificationsSilenced = false →
        (handleSilenceToggle c).2.sendSilenceConfirmation = true ∧
        (handleSilenceToggle c).2.message = .silenceConfirm ∧
        (handleSilenceToggle c).1.hornCurrentlyOn = false ∧
        (c.hornCurrentlyOn = true →
          (handleSilenceToggle c).2.setHornState = true ∧
          (handleSilenceToggle c).2.hornOn = false)) ∧
      (c.notificationsSilenced = true →
        (handleSilenceToggle c).2.sendUnsilenceConfirmation = true ∧
        (handleSilenceToggle c).2.message = .unsilenceConfirm)) ∧
    (handleSilenceToggle c).1.lastEmergencyMessageTime =
      c.lastEmergencyMessageTime := by
  simp only [handleSilenceToggle]
  split_ifs <;> simp_all

/-- C8 witness: silencing an urgent emergency with the horn on turns the
silence flag on, confirms, and emits the horn-off command. -/
theorem spec_C8_silence_toggle_witness :
    (handleSilenceToggle ctxEmergencyHornOn).1.notificationsSilenced = true ∧
    (handleSilenceToggle ctxEmergencyHornOn).2.sendSilenceConfirmation =
      true ∧
    (handleSilenceToggle ctxEmergencyHornOn).2.setHornState = true ∧
    (handleSilenceToggle ctxEmergencyHornOn).2.hornOn = false := by
  have h := spec_C8_silence_toggle ctxEmergencyHornOn
  have hE := h.2.1 (by decide)
  have hS := hE.2.1 (by decide)
  have hH := hS.2.2.2 (by decide)
  exact ⟨hE.1.trans (by decide), hS.1, hH.1, hH.2⟩

/-- C3: evaluating `updateStateMachine` at the spec's Scenario C input
(`notificationsSilenced = true`, `lastEmergencyMessageTime = 0`,
`emergencyNotifFreq_ms = 10000`, t = 20000).  The claim (and the
main-loop twin of this code in `src/src/main.cpp`, which carries the
comment "Update timer even when silenced to prevent message burst when
un-silenced") expects the throttle timer to advance to 20000 with no
alert; `updateStateMachine` instead leaves it at 0, because
`shouldSendEmergencyNotification` tests the silence flag before the
interval, so the timer is stamped only when an alert is actually
emitted.  The last conjunct shows the interval itself had elapsed. -/
theorem spec_C3_silenced_throttle_eval :
    (updateStateMachine ctxEmergencySilenced readingEmergency 20000
      false).1.lastEmergencyMessageTime = 0 ∧
    (updateStateMachine ctxEmergencySilenced readingEmergency 20000
      false).2.sendEmergencyNotification = false ∧
    (updateStateMachine ctxEmergencySilenced readingEmergency 20000
      false).1.currentState = .EMERGENCY ∧
    shouldSendEmergencyNotification
      { ctxEmergencySilenced with notificationsSilenced := false }
      20000 = true := by
  decide

/-- C1 counterexample: in `EMERGENCY` with an invalid reading, the update
call records `sensorError = true` yet leaves the state `EMERGENCY`; the
claimed "sensor_error forces Error regardless of the current state" is
false at this input. -/
theorem spec_C1_counterexample :
    (updateStateMachine ctxEmergency readingInvalidHigh 5000
      false).1.sensorError = true ∧
    (updateStateMachine ctxEmergency readingInvalidHigh 5000
      false).1.currentState = .EMERGENCY := by
  decide

/-- C1 (amended): `sensor_error` forces `Error` only from `Normal`, where
it overrides the emergency and config triggers; from `Error` it keeps
the state in `Error` unless a pending config command diverts to
`Config`; the transition rules for `Emergency` and `Config` do not
examine `sensor_error` at all — the resulting state is the same for a
valid and an invalid reading at the same level. -/
theorem spec_C1_amended (c : StateMachineContext)
    (r : StateMachineSensorReading) (t : ℕ) (a : Bool) :
    (r.valid = false → c.currentState = .NORMAL →
      (updateStateMachine c r t a).1.currentState = .ERROR) ∧
    (r.valid = false → c.currentState = .ERROR →
      (updateStateMachine c r t a).1.currentState =
        if c.configCommandReceived then .CONFIG else .ERROR) ∧
    (c.currentState = .EMERGENCY ∨ c.currentState = .CONFIG →
      ∀ (b : Bool),
        (updateStateMachine c { r with valid := b } t a).1.currentState =
          (updateStateMachine c r t a).1.currentState) := by
  refine ⟨?_, ?_, ?_⟩
  · intro hv hs
    rw [update_currentState,
      computeNextState_NORMAL _ _ _ _ (by simp [hs])]
    simp [hv]
  · intro hv hs
    rw [update_currentState,
      computeNextState_ERROR _ _ _ _ (by simp [hs])]
    simp [hv]
  · intro hs b
    rcases hs with hs | hs
    · rw [update_currentState, update_currentState,
        computeNextState_EMERGENCY _ _ _ _ (by simp [hs]),
        computeNextState_EMERGENCY _ _ _ _ (by simp [hs])]
      simp [senseCtx_falseTime]
    · rw [update_currentState, update_currentState,
        computeNextState_CONFIG _ _ _ _ (by simp [hs]),
        computeNextState_CONFIG _ _ _ _ (by simp [hs])]
      simp

/-- C1 witness: from `Normal`, one invalid reading drives the boot
context to `Error`. -/
theorem spec_C1_amended_witness :
    (updateStateMachine bootContext readingInvalid 1000
      false).1.currentState = .ERROR :=
  (spec_C1_amended bootContext readingInvalid 1000 false).1
    (by decide) (by decide)

/-- C4 counterexample: from `Normal` with `configCommandReceived = true`
and a valid normal reading, the update transitions into `Config` yet the
flag is still `true` after the call — entering `Config` does not consume
it. -/
theorem spec_C4_counterexample :
    (updateStateMachine ctxConfigPending readingNormal 1000
      false).1.currentState = .CONFIG ∧
    (updateStateMachine ctxConfigPending readingNormal 1000
      false).2.stateChanged = true ∧
    (updateStateMachine ctxConfigPending readingNormal 1000
      false).2.newState = .CONFIG ∧
    (updateStateMachine ctxConfigPending readingNormal 1000
      false).1.configCommandReceived = true := by
  decide

/-- C4 (amended): entering `Config` does not consume
`configCommandReceived`: after any update the flag keeps its old value
unless the call's transition entered `Normal` with the flag still set —
that is the only point where `updateStateMachine` clears it.  In
particular a call whose resulting state is `Config` leaves the flag
exactly as it was. -/
theorem spec_C4_amended (c : StateMachineContext)
    (r : StateMachineSensorReading) (t : ℕ) (a : Bool) :
    (updateStateMachine c r t a).1.configCommandReceived =
      (c.configCommandReceived &&
        !((updateStateMachine c r t a).2.stateChanged &&
          decide ((updateStateMachine c r t a).2.newState = State.NORMAL))) ∧
    ((updateStateMachine c r t a).1.currentState = .CONFIG →
      (updateStateMachine c r t a).1.configCommandReceived =
        c.configCommandReceived) := by
  have hc := update_config c r t a
  have hs := update_stateChanged c r t a
  have hn := update_newState c r t a
  have hcs := update_currentState c r t a
  constructor
  · rw [hc, hs, hn]
    by_cases h1 : computeNextState (senseCtx c r t) r t a ≠ c.currentState
    · by_cases h2 : computeNextState (senseCtx c r t) r t a = State.NORMAL
      · simp [h1, h2, Bool.and_comm]
      · simp [h1, h2]
    · simp [h1]
  · intro hcfg
    rw [hcs] at hcfg
    rw [hc]
    simp [hcfg]

/-- C4 witness: the amended characterisation applied to the concrete
`Normal → Config` transition: the flag survives the call. -/
theorem spec_C4_amended_witness :
    (updateStateMachine ctxConfigPending readingNormal 1000
      false).1.configCommandReceived =
      ctxConfigPending.configCommandReceived :=
  (spec_C4_amended ctxConfigPending readingNormal 1000 false).2 (by decide)

/-- C7: on an update in `EMERGENCY` with tier-2 active (reading at or
above both thresholds) and not silenced, the horn phase controller: with
`phase_duration = (hornCurrentlyOn ? hornOnDuration_ms :
hornOffDuration_ms)` taken as a 32-bit value, if the 32-bit elapsed time
`now − lastHornToggleTime` is ≥ the phase duration then the horn flips,
`lastHornToggleTime` is stamped with `now`, and a horn command carrying
the new level is emitted; otherwise horn state and toggle timestamp are
unchanged and no horn command is emitted.  The final conjunct is the
spec's Scenario B: horn off, last toggle 1000, durations 1000: the
update at t = 2001 emits a horn-on command and the horn is on. -/
theorem spec_C7_horn_phase :
    (∀ (c : StateMachineContext) (r : StateMachineSensorReading)
       (t : ℕ) (a : Bool),
      c.currentState = .EMERGENCY → r.valid = true →
      c.emergencyWaterLevel_cm ≤ r.level_cm →
      c.urgentEmergencyWaterLevel_cm ≤ r.level_cm →
      c.notificationsSilenced = false →
      ((timeElapsed t c.lastHornToggleTime ≥
          (if c.hornCurrentlyOn then c.hornOnDuration_ms
           else c.hornOffDuration_ms) % UINT32_MOD →
        (updateStateMachine c r t a).1.hornCurrentlyOn =
          !c.hornCurrentlyOn ∧
        (updateStateMachine c r t a).1.lastHornToggleTime = t ∧
        (updateStateMachine c r t a).2.setHornState = true ∧
        (updateStateMachine c r t a).2.hornOn = !c.hornCurrentlyOn) ∧
       (timeElapsed t c.lastHornToggleTime <
          (if c.hornCurrentlyOn then c.hornOnDuration_ms
           else c.hornOffDuration_ms) % UINT32_MOD →
        (updateStateMachine c r t a).1.hornCurrentlyOn =
          c.hornCurrentlyOn ∧
        (updateStateMachine c r t a).1.lastHornToggleTime =
          c.lastHornToggleTime ∧
        (updateStateMachine c r t a).2.setHornState = false))) ∧
    ((updateStateMachine ctxScenarioB readingUrgent 2001
       false).2.setHornState = true ∧
     (updateStateMachine ctxScenarioB readingUrgent 2001
       false).2.hornOn = true ∧
     (updateStateMachine ctxScenarioB readingUrgent 2001
       false).1.hornCurrentlyOn = true) := by
  constructor
  · intro c r t a hs hv h1 h2 hsil
    have hnext : computeNextState (senseCtx c r t) r t a = .EMERGENCY := by
      rw [computeNextState_EMERGENCY _ _ _ _ (by simp [hs])]
      simp [h1]
    have hp : applyTransition (senseCtx c r t)
        (computeNextState (senseCtx c r t) r t a) t =
        (senseCtx c r t, StateMachineOutput.init) :=
      applyTransition_eq_self _ _ (by rw [hnext]; simp [hs])
    have hU : updateStateMachine c r t a =
        hornTick (notificationTick (senseCtx c r t) r t
          StateMachineOutput.init).1 t
          (notificationTick (senseCtx c r t) r t
            StateMachineOutput.init).2 := by
      simp only [updateStateMachine_def]
      rw [hp]
      simp [hs]
    have hguard : shouldHornBeOn (notificationTick (senseCtx c r t) r t
        StateMachineOutput.init).1 t =
        (if timeElapsed t c.lastHornToggleTime ≥
            (if c.hornCurrentlyOn then c.hornOnDuration_ms
             else c.hornOffDuration_ms) % UINT32_MOD then
          !c.hornCurrentlyOn
         else c.hornCurrentlyOn) := by
      rw [shouldHornBeOn_notificationTick]
      unfold shouldHornBeOn
      simp [hs, h2, hsil]
    have hx : (notificationTick (senseCtx c r t) r t
        StateMachineOutput.init).1.hornCurrentlyOn = c.hornCurrentlyOn := by
      simp
    rw [hU]
    refine ⟨fun hge => ?_, fun hlt => ?_⟩
    · have hsb : shouldHornBeOn (notificationTick (senseCtx c r t) r t
          StateMachineOutput.init).1 t = !c.hornCurrentlyOn := by
        rw [hguard, if_pos hge]
      refine ⟨?_, ?_, ?_, ?_⟩
      · rw [hornTick_horn, hsb]
      · rw [hornTick_lastToggle, hx, hsb]; simp
      · rw [hornTick_setHornState, hx, hsb]; simp
      · rw [hornTick_hornOn, hx, hsb]; simp
    · have hsb : shouldHornBeOn (notificationTick (senseCtx c r t) r t
          StateMachineOutput.init).1 t = c.hornCurrentlyOn := by
        rw [hguard, if_neg (by omega)]
      refine ⟨?_, ?_, ?_⟩
      · rw [hornTick_horn, hsb]
      · rw [hornTick_lastToggle, hx, hsb]; simp
      · rw [hornTick_setHornState, hx, hsb]
        simp [StateMachineOutput.init]
  · decide

/-- C7 witness: the general phase rule applied at Scenario B's input:
the horn flips on and the toggle timestamp advances to 2001. -/
theorem spec_C7_horn_phase_witness :
    (updateStateMachine ctxScenarioB readingUrgent 2001
      false).1.hornCurrentlyOn = !ctxScenarioB.hornCurrentlyOn ∧
    (updateStateMachine ctxScenarioB readingUrgent 2001
      false).1.lastHornToggleTime = 2001 := by
  have h := (spec_C7_horn_phase.1 ctxScenarioB readingUrgent 2001 false
    (by decide) (by decide) (by decide) (by decide) (by decide)).1 (by decide)
  exact ⟨h.1, h.2.1⟩

/-! ### Reachability invariants (C2, C6) -/

theorem hornInv_boot : hornInv bootContext := by
  intro h
  exact absurd h (by decide)

theorem hornInv_update (c : StateMachineContext)
    (r : StateMachineSensorReading) (t : ℕ) (a : Bool) :
    hornInv (updateStateMachine c r t a).1 := by
  intro hh
  simp only [updateStateMachine_def] at hh ⊢
  by_cases hEm : (applyTransition (senseCtx c r t)
      (computeNextState (senseCtx c r t) r t a) t).1.currentState =
      .EMERGENCY
  · rw [if_pos hEm] at hh ⊢
    rw [hornTick_horn, shouldHornBeOn_notificationTick] at hh
    have hg := shouldHornBeOn_true_guard _ _ hh
    unfold hornGuard
    refine ⟨?_, ?_, ?_⟩
    · simpa using hg.1
    · simpa using hg.2.1
    · simpa using hg.2.2
  · rw [if_neg hEm] at hh
    rw [hornForceOff_horn] at hh
    exact absurd hh (by simp)

theorem hornInv_toggle (c : StateMachineContext) (h : hornInv c) :
    hornInv (handleSilenceToggle c).1 := by
  unfold hornInv hornGuard at *
  simp only [handleSilenceToggle]
  split_ifs <;> intro hh <;> simp_all

theorem reachable_hornInv (c : StateMachineContext) (h : Reachable c) :
    hornInv c := by
  induction h with
  | boot => exact hornInv_boot
  | update r t a hc ih => exact hornInv_update _ r t a
  | toggle hc ih => exact hornInv_toggle _ ih

theorem update_forces_horn_off (c : StateMachineContext)
    (r : StateMachineSensorReading) (t : ℕ) (a : Bool)
    (hOn : c.hornCurrentlyOn = true)
    (hng : ¬hornGuard (updateStateMachine c r t a).1) :
    (updateStateMachine c r t a).1.hornCurrentlyOn = false ∧
    (updateStateMachine c r t a).2.setHornState = true ∧
    (updateStateMachine c r t a).2.hornOn = false := by
  simp only [updateStateMachine_def] at hng ⊢
  set p := applyTransition (senseCtx c r t)
    (computeNextState (senseCtx c r t) r t a) t with hpdef
  by_cases hEm : p.1.currentState = .EMERGENCY
  · rw [if_pos hEm] at hng ⊢
    set q := notificationTick p.1 r t p.2 with hqdef
    have hsb : shouldHornBeOn q.1 t = false := by
      cases hx : shouldHornBeOn q.1 t
      · rfl
      · exfalso
        apply hng
        have hg := shouldHornBeOn_true_guard _ _ hx
        unfold hornGuard
        exact ⟨by simpa using hg.1, by simpa using hg.2.1,
          by simpa using hg.2.2⟩
    have hqh : q.1.hornCurrentlyOn = true := by
      simp [hqdef, hpdef, hOn]
    refine ⟨?_, ?_, ?_⟩
    · rw [hornTick_horn, hsb]
    · rw [hornTick_setHornState, hqh, hsb]; simp
    · rw [hornTick_hornOn, hqh, hsb]; simp
  · rw [if_neg hEm] at hng ⊢
    have hph : p.1.hornCurrentlyOn = true := by simp [hpdef, hOn]
    refine ⟨?_, ?_, ?_⟩
    · rw [hornForceOff_horn]
    · rw [hornForceOff_setHornState, hph]; simp
    · rw [hornForceOff_hornOn, hph]; simp

theorem toggle_forces_horn_off (c : StateMachineContext) (hr : Reachable c)
    (hOn : c.hornCurrentlyOn = true) :
    (handleSilenceToggle c).1.hornCurrentlyOn = false ∧
    (handleSilenceToggle c).2.setHornState = true ∧
    (handleSilenceToggle c).2.hornOn = false := by
  have hg := reachable_hornInv c hr hOn
  unfold hornGuard at hg
  obtain ⟨hs, hu, hsil⟩ := hg
  simp only [handleSilenceToggle]
  rw [if_neg (by simp [hs])]
  simp [hsil, hOn]

theorem silenceInv_boot : silenceInv bootContext := by
  intro h
  exact absurd h (by decide)

theorem silenceInv_update (c : StateMachineContext)
    (r : StateMachineSensorReading) (t : ℕ) (a : Bool)
    (h : silenceInv c) : silenceInv (updateStateMachine c r t a).1 := by
  intro hh
  rw [update_silenced] at hh
  rw [update_currentState]
  by_cases hcond : computeNextState (senseCtx c r t) r t a ≠ c.currentState ∧
      computeNextState (senseCtx c r t) r t a = State.NORMAL
  · rw [if_pos hcond] at hh
    exact absurd hh (by simp)
  · rw [if_neg hcond] at hh
    have hs := h hh
    rcases computeNextState_EMERGENCY_cases (senseCtx c r t) r t a
        (by simp [hs]) with he | hn
    · exact he
    · exfalso
      apply hcond
      refine ⟨?_, hn⟩
      rw [hn, hs]
      simp

theorem silenceInv_toggle (c : StateMachineContext) (h : silenceInv c) :
    silenceInv (handleSilenceToggle c).1 := by
  intro hh
  by_cases hs : c.currentState = .EMERGENCY
  · have hstate : (handleSilenceToggle c).1.currentState = c.currentState := by
      simp only [handleSilenceToggle]
      split_ifs <;> simp
    rw [hstate, hs]
  · have hno : handleSilenceToggle c = (c, StateMachineOutput.init) := by
      simp only [handleSilenceToggle]
      rw [if_pos hs]
    rw [hno] at hh
    exact absurd (h hh) hs

theorem reachable_silenceInv (c : StateMachineContext) (h : Reachable c) :
    silenceInv c := by
  induction h with
  | boot => exact silenceInv_boot
  | update r t a hc ih => exact silenceInv_update _ r t a ih
  | toggle hc ih => exact silenceInv_toggle _ ih

/-- C2: for every context reachable from the boot context by
`updateStateMachine` and `handleSilenceToggle` calls, `hornCurrentlyOn =
true` implies `currentState = EMERGENCY`, tier-2 active and not
silenced; and whenever the guard is false after a call made while the
horn was on, that same call has turned the horn off and emitted a
horn-off command (for the toggle this uses reachability: a reachable
context with the horn on is in `EMERGENCY`, so the toggle silences and
kills the horn). -/
theorem spec_C2_horn_safety :
    (∀ c, Reachable c → c.hornCurrentlyOn = true →
      c.currentState = .EMERGENCY ∧ c.urgentEmergencyConditions = true ∧
        c.notificationsSilenced = false) ∧
    (∀ (c : StateMachineContext) (r : StateMachineSensorReading)
       (t : ℕ) (a : Bool),
      c.hornCurrentlyOn = true →
      ¬hornGuard (updateStateMachine c r t a).1 →
      (updateStateMachine c r t a).1.hornCurrentlyOn = false ∧
      (updateStateMachine c r t a).2.setHornState = true ∧
      (updateStateMachine c r t a).2.hornOn = false) ∧
    (∀ c, Reachable c → c.hornCurrentlyOn = true →
      ¬hornGuard (handleSilenceToggle c).1 →
      (handleSilenceToggle c).1.hornCurrentlyOn = false ∧
      (handleSilenceToggle c).2.setHornState = true ∧
      (handleSilenceToggle c).2.hornOn = false) := by
  refine ⟨?_, ?_, ?_⟩
  · intro c hr hOn
    exact reachable_hornInv c hr hOn
  · intro c r t a hOn hng
    exact update_forces_horn_off c r t a hOn hng
  · intro c hr hOn _
    exact toggle_forces_horn_off c hr hOn

/-- C2 witness: a call made with the horn on while tier-2 has dropped
(reading 35 < tier-2 threshold 50) turns the horn off and emits the
horn-off command. -/
theorem spec_C2_horn_safety_witness :
    (updateStateMachine ctxEmergencyHornOn readingEmergency 100
      false).1.hornCurrentlyOn = false ∧
    (updateStateMachine ctxEmergencyHornOn readingEmergency 100
      false).2.setHornState = true ∧
    (updateStateMachine ctxEmergencyHornOn readingEmergency 100
      false).2.hornOn = false :=
  spec_C2_horn_safety.2.1 ctxEmergencyHornOn readingEmergency 100 false
    (by decide) (by decide)

/-- C6: for every reachable context, `notificationsSilenced = true`
implies `currentState = EMERGENCY`; and on the very update call whose
transition performs the debounced `Emergency → Normal` exit,
`notificationsSilenced` is already false after that call. -/
theorem spec_C6_silence_scope :
    (∀ c, Reachable c → c.notificationsSilenced = true →
      c.currentState = .EMERGENCY) ∧
    (∀ (c : StateMachineContext) (r : StateMachineSensorReading)
       (t : ℕ) (a : Bool),
      c.currentState = .EMERGENCY →
      (updateStateMachine c r t a).1.currentState = .NORMAL →
      (updateStateMachine c r t a).1.notificationsSilenced = false) := by
  constructor
  · intro c hr
    exact reachable_silenceInv c hr
  · intro c r t a hs hpost
    rw [update_currentState] at hpost
    have hcond : computeNextState (senseCtx c r t) r t a ≠ c.currentState ∧
        computeNextState (senseCtx c r t) r t a = State.NORMAL := by
      refine ⟨?_, hpost⟩
      rw [hpost, hs]
      simp
    rw [update_silenced, if_pos hcond]

/-- C6 witness: the silenced emergency context exits to `Normal` at
t = 2001 (conditions have been false since tick 0) and the silence flag
is clear in that same call. -/
theorem spec_C6_silence_scope_witness :
    (updateStateMachine ctxEmergencyClearing readingNormal 2001
      false).1.notificationsSilenced = false :=
  spec_C6_silence_scope.2 ctxEmergencyClearing readingNormal 2001 false
    (by decide) (by decide)

/-! ### Trace lemmas for the entry debounce (C5) -/

theorem runCtx_append (c : StateMachineContext)
    (xs ys : List (StateMachineSensorReading × ℕ × Bool)) :
    runCtx c (xs ++ ys) = runCtx (runCtx c xs) ys := by
  induction xs generalizing c with
  | nil => rfl
  | cons x rest ih =>
      obtain ⟨r, t, a⟩ := x
      simp [runCtx, ih]

theorem runStates_append (c : StateMachineContext)
    (xs ys : List (StateMachineSensorReading × ℕ × Bool)) :
    runStates c (xs ++ ys) =
      runStates c xs ++ runStates (runCtx c xs) ys := by
  induction xs generalizing c with
  | nil => rfl
  | cons x rest ih =>
      obtain ⟨r, t, a⟩ := x
      simp [runStates, runCtx, ih]

/-- A valid reading below tier 1, taken from `NORMAL` with no pending
config command, keeps the machine in `NORMAL` and leaves the tier-1 flag
false. -/
theorem step_below (c : StateMachineContext) (l : ℚ) (t : ℕ)
    (hs : c.currentState = .NORMAL) (hcfg : c.configCommandReceived = false)
    (hlev : l < c.emergencyWaterLevel_cm) :
    (updateStateMachine c ⟨true, l⟩ t false).1.currentState = .NORMAL ∧
    (updateStateMachine c ⟨true, l⟩ t false).1.configCommandReceived =
      false ∧
    (updateStateMachine c ⟨true, l⟩ t false).1.emergencyConditions = false ∧
    (updateStateMachine c ⟨true, l⟩ t false).1.emergencyWaterLevel_cm =
      c.emergencyWaterLevel_cm := by
  have hnle : ¬ c.emergencyWaterLevel_cm ≤ l := not_le.mpr hlev
  have hnext : computeNextState (senseCtx c ⟨true, l⟩ t) ⟨true, l⟩ t false =
      .NORMAL := by
    rw [computeNextState_NORMAL _ _ _ _ (by simp [hs])]
    simp [hcfg, hnle]
  refine ⟨?_, ?_, ?_, ?_⟩
  · rw [update_currentState, hnext]
  · rw [update_config, hnext]
    simp [hs, hcfg]
  · simp [hnle]
  · simp

/-- The rising-edge tick: a valid reading at or above tier 1 taken from
`NORMAL` with the tier-1 flag false records the edge timestamp and stays
in `NORMAL` (the debounce guard sees zero elapsed time). -/
theorem step_edge (c : StateMachineContext) (l : ℚ) (t : ℕ)
    (hs : c.currentState = .NORMAL) (hcfg : c.configCommandReceived = false)
    (hcond : c.emergencyConditions = false)
    (hlev : c.emergencyWaterLevel_cm ≤ l) :
    (updateStateMachine c ⟨true, l⟩ t false).1.currentState = .NORMAL ∧
    (updateStateMachine c ⟨true, l⟩ t false).1.configCommandReceived =
      false ∧
    (updateStateMachine c ⟨true, l⟩ t false).1.emergencyConditions = true ∧
    (updateStateMachine c ⟨true, l⟩ t
      false).1.emergencyConditionsTrueTime = t ∧
    (updateStateMachine c ⟨true, l⟩ t false).1.emergencyWaterLevel_cm =
      c.emergencyWaterLevel_cm := by
  have hnext : computeNextState (senseCtx c ⟨true, l⟩ t) ⟨true, l⟩ t false =
      .NORMAL := by
    rw [computeNextState_NORMAL _ _ _ _ (by simp [hs])]
    have htt : (senseCtx c ⟨true, l⟩ t).emergencyConditionsTrueTime = t := by
      rw [senseCtx_trueTime]
      simp [hlev, hcond]
    simp [hcfg, htt, timeElapsed_self, EMERGENCY_TIMEOUT_MS]
  refine ⟨?_, ?_, ?_, ?_, ?_⟩
  · rw [update_currentState, hnext]
  · rw [update_config, hnext]
    simp [hs, hcfg]
  · simp [hlev]
  · rw [update_trueTime]
    simp [hlev, hcond]
  · simp

/-- A tick inside the debounce window: the flag is already latched with
edge timestamp `t0` and the 32-bit elapsed time at `t` is still below
the timeout, so the machine stays in `NORMAL` and the edge timestamp is
kept. -/
theorem step_above (c : StateMachineContext) (l : ℚ) (t t0 : ℕ)
    (hs : c.currentState = .NORMAL) (hcfg : c.configCommandReceived = false)
    (hcond : c.emergencyConditions = true)
    (htt : c.emergencyConditionsTrueTime = t0)
    (hlev : c.emergencyWaterLevel_cm ≤ l)
    (hwin : timeElapsed t t0 < EMERGENCY_TIMEOUT_MS) :
    (updateStateMachine c ⟨true, l⟩ t false).1.currentState = .NORMAL ∧
    (updateStateMachine c ⟨true, l⟩ t false).1.configCommandReceived =
      false ∧
    (updateStateMachine c ⟨true, l⟩ t false).1.emergencyConditions = true ∧
    (updateStateMachine c ⟨true, l⟩ t
      false).1.emergencyConditionsTrueTime = t0 ∧
    (updateStateMachine c ⟨true, l⟩ t false).1.emergencyWaterLevel_cm =
      c.emergencyWaterLevel_cm := by
  have hnge : ¬ timeElapsed t t0 ≥ EMERGENCY_TIMEOUT_MS := not_le.mpr hwin
  have hnext : computeNextState (senseCtx c ⟨true, l⟩ t) ⟨true, l⟩ t false =
      .NORMAL := by
    rw [computeNextState_NORMAL _ _ _ _ (by simp [hs])]
    have hst : (senseCtx c ⟨true, l⟩ t).emergencyConditionsTrueTime = t0 := by
      rw [senseCtx_trueTime]
      simp [hcond, htt]
    simp [hcfg, hst, hnge]
  refine ⟨?_, ?_, ?_, ?_, ?_⟩
  · rw [update_currentState, hnext]
  · rw [update_config, hnext]
    simp [hs, hcfg]
  · simp [hlev]
  · rw [update_trueTime]
    simp [hcond, htt]
  · simp

/-- Running any list of valid below-tier-1 ticks from `NORMAL` keeps
every intermediate state `NORMAL`; the final context is `NORMAL` with no
config command, the same threshold, and (when the tier-1 flag started
false) a false tier-1 flag. -/
theorem run_below_keep (T : ℚ) (L : List (ℚ × ℕ)) :
    ∀ c : StateMachineContext, c.currentState = .NORMAL →
    c.configCommandReceived = false → c.emergencyWaterLevel_cm = T →
    (∀ p ∈ L, p.1 < T) →
    (∀ s ∈ runStates c (L.map fun p => plainTick p.1 p.2),
      s = State.NORMAL) ∧
    (runCtx c (L.map fun p => plainTick p.1 p.2)).currentState = .NORMAL ∧
    (runCtx c (L.map fun p => plainTick p.1 p.2)).configCommandReceived =
      false ∧
    (runCtx c (L.map fun p => plainTick p.1 p.2)).emergencyWaterLevel_cm =
      T ∧
    (c.emergencyConditions = false →
      (runCtx c (L.map fun p => plainTick p.1 p.2)).emergencyConditions =
        false) := by
  induction L with
  | nil =>
      intro c h1 h2 h4 h5
      exact ⟨by simp [runStates], h1, h2, h4, fun h => h⟩
  | cons p rest ih =>
      intro c h1 h2 h4 h5
      obtain ⟨l, tt⟩ := p
      have hl : l < c.emergencyWaterLevel_cm := by
        rw [h4]
        exact h5 (l, tt) (by simp)
      obtain ⟨hs', hc', hcond', ht'⟩ := step_below c l tt h1 h2 hl
      have hrest := ih (updateStateMachine c ⟨true, l⟩ tt false).1 hs' hc'
        (ht'.trans h4) (fun q hq => h5 q (by simp [hq]))
      refine ⟨?_, ?_, ?_, ?_, ?_⟩
      · intro s hmem
        simp only [List.map_cons, runStates, plainTick, List.mem_cons] at hmem
        rcases hmem with hmem | hmem
        · rw [hmem, hs']
        · exact hrest.1 s hmem
      · simpa [runCtx, plainTick] using hrest.2.1
      · simpa [runCtx, plainTick] using hrest.2.2.1
      · simpa [runCtx, plainTick] using hrest.2.2.2.1
      · intro hc0
        simpa [runCtx, plainTick] using hrest.2.2.2.2 hcond'

/-- Running ticks at or above tier 1 whose times all lie inside the
32-bit debounce window of the latched edge `t0` keeps every state
`NORMAL`. -/
theorem run_above (T : ℚ) (t0 : ℕ) (L : List (ℚ × ℕ)) :
    ∀ c : StateMachineContext, c.currentState = .NORMAL →
    c.configCommandReceived = false → c.emergencyConditions = true →
    c.emergencyConditionsTrueTime = t0 → c.emergencyWaterLevel_cm = T →
    (∀ p ∈ L, T ≤ p.1 ∧ timeElapsed p.2 t0 < EMERGENCY_TIMEOUT_MS) →
    (∀ s ∈ runStates c (L.map fun p => plainTick p.1 p.2),
      s = State.NORMAL) ∧
    (runCtx c (L.map fun p => plainTick p.1 p.2)).currentState = .NORMAL ∧
    (runCtx c (L.map fun p => plainTick p.1 p.2)).configCommandReceived =
      false ∧
    (runCtx c (L.map fun p => plainTick p.1 p.2)).emergencyWaterLevel_cm =
      T := by
  induction L with
  | nil =>
      intro c h1 h2 h3 h4 h5 h6
      exact ⟨by simp [runStates], h1, h2, h5⟩
  | cons p rest ih =>
      intro c h1 h2 h3 h4 h5 h6
      obtain ⟨l, tt⟩ := p
      obtain ⟨hl, hw⟩ := h6 (l, tt) (by simp)
      have hl' : c.emergencyWaterLevel_cm ≤ l := by rw [h5]; exact hl
      obtain ⟨hs', hc', hcond', ht', htier'⟩ :=
        step_above c l tt t0 h1 h2 h3 h4 hl' hw
      have hrest := ih (updateStateMachine c ⟨true, l⟩ tt false).1 hs' hc'
        hcond' ht' (htier'.trans h5) (fun q hq => h6 q (by simp [hq]))
      refine ⟨?_, ?_, ?_, ?_⟩
      · intro s hmem
        simp only [List.map_cons, runStates, plainTick, List.mem_cons] at hmem
        rcases hmem with hmem | hmem
        · rw [hmem, hs']
        · exact hrest.1 s hmem
      · simpa [runCtx, plainTick] using hrest.2.1
      · simpa [runCtx, plainTick] using hrest.2.2.1
      · simpa [runCtx, plainTick] using hrest.2.2.2

set_option maxHeartbeats 1000000

/-- C5: entering `Emergency` from `Normal` requires tier-1 to hold
continuously for the full 1000 ms debounce: along any trace consisting
of below-threshold readings, then a spike of at-or-above-threshold
readings all inside the 32-bit debounce window of the spike's first tick
`t0`, then below-threshold readings again, every state is `NORMAL` — no
`Normal → Emergency` transition happens.  The final conjunct is the
spec's Scenario A: a constant valid 35 cm reading with thresholds 30/50
and rising edge at t = 0 leaves the state `NORMAL` at t = 999 and makes
it `EMERGENCY` at t = 1001. -/
theorem spec_C5_debounced_entry :
    (∀ (c : StateMachineContext) (A B C : List (ℚ × ℕ)) (t0 : ℕ),
      c.currentState = .NORMAL → c.configCommandReceived = false →
      c.emergencyConditions = false →
      (∀ p ∈ A, p.1 < c.emergencyWaterLevel_cm) →
      (∀ p ∈ B, c.emergencyWaterLevel_cm ≤ p.1 ∧
        timeElapsed p.2 t0 < EMERGENCY_TIMEOUT_MS) →
      (∀ h : B ≠ [], (B.head h).2 = t0) →
      (∀ p ∈ C, p.1 < c.emergencyWaterLevel_cm) →
      ∀ s ∈ runStates c ((A ++ B ++ C).map fun p => plainTick p.1 p.2),
        s = State.NORMAL) ∧
    runStates bootContext
      [plainTick 35 0, plainTick 35 999, plainTick 35 1001] =
      [State.NORMAL, State.NORMAL, State.EMERGENCY] := by
  constructor
  · intro c A B C t0 h1 h2 h3 hA hB hB0 hC s hmem
    rw [List.map_append, List.map_append, runStates_append,
      runStates_append, runCtx_append] at hmem
    obtain ⟨hAall, hA1, hA2, hA4, hA5⟩ :=
      run_below_keep c.emergencyWaterLevel_cm A c h1 h2 rfl hA
    have hAcond := hA5 h3
    set cA := runCtx c (List.map (fun p => plainTick p.1 p.2) A) with hcA
    rcases List.mem_append.mp hmem with hmem | hmemC
    · rcases List.mem_append.mp hmem with hmemA | hmemB
      · exact hAall s hmemA
      · cases B with
        | nil => simp [runStates] at hmemB
        | cons p Brest =>
            obtain ⟨l0, tb0⟩ := p
            have ht0 : tb0 = t0 := by
              have := hB0 (by simp)
              simpa using this
            obtain ⟨hl0, _⟩ := hB (l0, tb0) (by simp)
            have hl0' : cA.emergencyWaterLevel_cm ≤ l0 := by
              rw [hA4]; exact hl0
            obtain ⟨hs', hc', hcond', ht', htier'⟩ :=
              step_edge cA l0 tb0 hA1 hA2 hAcond hl0'
            simp only [List.map_cons, runStates, plainTick,
              List.mem_cons] at hmemB
            set c1 := (updateStateMachine cA ⟨true, l0⟩ tb0 false).1 with hc1
            have hrest := run_above c.emergencyWaterLevel_cm t0 Brest
              c1 hs' hc' hcond' (ht'.trans ht0) (htier'.trans hA4)
              (fun q hq => hB q (by simp [hq]))
            rcases hmemB with hmemB | hmemB
            · rw [hmemB, hs']
            · exact hrest.1 s hmemB
    · cases B with
      | nil =>
          have hCrun := run_below_keep c.emergencyWaterLevel_cm C cA
            hA1 hA2 hA4 hC
          simp only [List.map_nil, runCtx] at hmemC
          exact hCrun.1 s hmemC
      | cons p Brest =>
          obtain ⟨l0, tb0⟩ := p
          have ht0 : tb0 = t0 := by
            have := hB0 (by simp)
            simpa using this
          obtain ⟨hl0, _⟩ := hB (l0, tb0) (by simp)
          have hl0' : cA.emergencyWaterLevel_cm ≤ l0 := by
            rw [hA4]; exact hl0
          obtain ⟨hs', hc', hcond', ht', htier'⟩ :=
            step_edge cA l0 tb0 hA1 hA2 hAcond hl0'
          simp only [List.map_cons, runCtx, plainTick] at hmemC
          set c1 := (updateStateMachine cA ⟨true, l0⟩ tb0 false).1 with hc1
          have hrest := run_above c.emergencyWaterLevel_cm t0 Brest
            c1 hs' hc' hcond' (ht'.trans ht0) (htier'.trans hA4)
            (fun q hq => hB q (by simp [hq]))
          have hCrun := run_below_keep c.emergencyWaterLevel_cm C
            (runCtx c1 (Brest.map fun p => plainTick p.1 p.2))
            hrest.2.1 hrest.2.2.1 hrest.2.2.2 hC
          exact hCrun.1 s hmemC
  · decide

/-- C5 witness: the general no-entry statement applied to a concrete
spike (below at t = 0, above at t = 100 and t = 900, below at t = 1200):
the state after the third tick is still `NORMAL`. -/
theorem spec_C5_debounced_entry_witness :
    (runCtx bootContext [plainTick 10 0, plainTick 35 100,
      plainTick 35 900]).currentState = State.NORMAL :=
  spec_C5_debounced_entry.1 bootContext [(10, 0)] [(35, 100), (35, 900)]
    [(10, 1200)] 100 (by decide) (by decide) (by decide) (by decide)
    (by decide) (fun _ => rfl) (by decide)
    ((runCtx bootContext [plainTick 10 0, plainTick 35 100,
      plainTick 35 900]).currentState)
    (by decide)

set_option maxHeartbeats 200000

/-- C9 counterexample: from `Normal` with an invalid reading and a
pending config command, the first update transitions `Normal → Error`;
the second update with the identical arguments and no intervening
button event transitions again (`Error → Config`), so its
`stateChanged` is `true`, not `false` as claimed. -/
theorem spec_C9_counterexample :
    (updateStateMachine ctxConfigPending readingInvalid 1000
      false).1.currentState = .ERROR ∧
    (updateStateMachine (updateStateMachine ctxConfigPending readingInvalid
      1000 false).1 readingInvalid 1000 false).2.stateChanged = true ∧
    (updateStateMachine (updateStateMachine ctxConfigPending readingInvalid
      1000 false).1 readingInvalid 1000 false).1.currentState = .CONFIG := by
  decide

/-- C9 (amended): the second of two calls with identical
`(reading, now, configServerActive)` arguments reports `stateChanged =
false` provided the first call itself reported `stateChanged = false`;
when the first call does change state, a second transition can fire on
the very next call (transition chains such as `Normal → Error → Config`
and `Error → Normal → Emergency` exist), so the unconditional claim
fails. -/
theorem spec_C9_amended (c : StateMachineContext)
    (r : StateMachineSensorReading) (t : ℕ) (a : Bool)
    (h : (updateStateMachine c r t a).2.stateChanged = false) :
    (updateStateMachine (updateStateMachine c r t a).1 r t
      a).2.stateChanged = false := by
  rw [update_stateChanged] at h
  have hnext : computeNextState (senseCtx c r t) r t a = c.currentState := by
    by_contra hx
    simp [hx] at h
  set c1 := (updateStateMachine c r t a).1 with hc1
  have hcur : c1.currentState = c.currentState := by
    rw [hc1, update_currentState, hnext]
  have hcfg : c1.configCommandReceived = c.configCommandReceived := by
    rw [hc1, update_config, hnext]
    simp
  have hcongr : computeNextState (senseCtx c1 r t) r t a =
      computeNextState (senseCtx c r t) r t a := by
    apply computeNextState_congr
    · simp [hcur]
    · simp
    · simp [hcfg]
    · simp [hc1]
    · rw [senseCtx_trueTime, senseCtx_trueTime]
      by_cases hlev : c.emergencyWaterLevel_cm ≤ r.level_cm <;>
        simp [hlev, hc1, update_trueTime]
    · rw [senseCtx_falseTime, senseCtx_falseTime]
      by_cases hlev : c.emergencyWaterLevel_cm ≤ r.level_cm <;>
        simp [hlev, hc1, update_falseTime]
  rw [update_stateChanged, hcongr, hnext, hcur]
  simp

/-- C9 witness: two identical below-threshold updates from boot: the
first does not change state, and neither does the second. -/
theorem spec_C9_amended_witness :
    (updateStateMachine (updateStateMachine bootContext readingNormal 500
      false).1 readingNormal 500 false).2.stateChanged = false :=
  spec_C9_amended bootContext readingNormal 500 false (by decide)

end BoatReporter
